import Mathlib

/-!
Verification of the Spyder warehouse simulation scripts.

This file gives a shallow embedding of the two Python sources
`Spyder_Robo.py` (namespace `SpyderRobo`) and `Spyder_Robo_Streamlit.py`
(namespace `Streamlit`) and proves / refutes the frozen claims about them.

Modelling conventions:
* Python floats are modelled as real numbers (`ℝ`) where square roots
  occur, and generically over a `LinearOrderedField` where the code only
  performs field operations, so that concrete runs can be evaluated on `ℚ`.
* `x ** 0.5` on a non-negative float is modelled as `Real.sqrt x`.
* A Python function that can raise `ZeroDivisionError` is modelled as
  returning `Option` with `none` on the faulting path.
* The single special node is called the depot: `"Retrieval"` in
  `Spyder_Robo.py` and `"Fulfillment Zone"` in the Streamlit script.
* Randomness (`random.choices`, `random.uniform`) and the networkx
  shortest-path oracle are modelled as injected parameters, which is the
  standard shallow embedding of I/O-free effectful calls.
-/

namespace Spyder

/-- A warehouse graph node: a storage coordinate `(aisle, level)` or the
single depot node. -/
inductive Node where
  | storage : Nat → Nat → Node
  | depot : Node
deriving DecidableEq, Repr

namespace SpyderRobo

/-- `calculate_travel_time` from `Spyder_Robo.py` (lines 28-31):
`2 * (distance_x / (2 * accel_x)) ** 0.5 + 2 * (distance_z / (2 * accel_z)) ** 0.5`.
The speed arguments are accepted and unused, exactly as in the source. -/
noncomputable def calculate_travel_time
    (distance_x distance_z speed_x speed_z accel_x accel_z : ℝ) : ℝ :=
  2 * Real.sqrt (distance_x / (2 * accel_x)) + 2 * Real.sqrt (distance_z / (2 * accel_z))

/-- The weight that `create_warehouse_graph` in `Spyder_Robo.py` (lines 16-23)
puts on the edge from storage node `(aisle, level)` to `"Retrieval"`:
the kinematic travel time over horizontal distance
`aisle_length * (aisle / num_aisles)` and vertical distance
`level_height * (level / num_levels)`. -/
noncomputable def retrieval_edge_weight
    (num_aisles num_levels : ℕ) (aisle_length level_height : ℝ)
    (speed_x speed_z accel_x accel_z : ℝ) (aisle level : ℕ) : ℝ :=
  calculate_travel_time
    (aisle_length * ((aisle : ℝ) / (num_aisles : ℝ)))
    (level_height * ((level : ℝ) / (num_levels : ℝ)))
    speed_x speed_z accel_x accel_z

/-- `calculate_cost_per_transaction` from `Spyder_Robo.py` (lines 37-40):
`num_robots * (20 + upgrade_cost) / total_transactions` with no guard; a
zero `total_transactions` raises `ZeroDivisionError`, modelled as `none`. -/
def calculate_cost_per_transaction {α : Type} [LinearOrderedField α]
    (num_robots upgrade_cost total_transactions : α) : Option α :=
  let base_cost_per_robot : α := 20
  let system_cost := num_robots * (base_cost_per_robot + upgrade_cost)
  if total_transactions = 0 then none else some (system_cost / total_transactions)

/-- `simulate_transactions` from `Spyder_Robo.py` (lines 43-51): sum
`travel_time + extraction_time` over the randomly chosen storage nodes
(injected as `picks`, with `path_length` embedding
`nx.shortest_path_length` to `"Retrieval"`), then return
`total_time / num_transactions` — which raises `ZeroDivisionError` when
`num_transactions = 0`, modelled as `none`.  The `num_robots` argument is
accepted and unused, exactly as in the source. -/
def simulate_transactions {α : Type} [LinearOrderedField α] (num_robots : ℕ)
    (extraction_time : α) (picks : List Node) (path_length : Node → α) : Option α :=
  let total_time := picks.foldl (fun acc node => acc + (path_length node + extraction_time)) 0
  if picks.length = 0 then none else some (total_time / (picks.length : α))

/-- The throughput block of `run_cases` in `Spyder_Robo.py` (lines 69-70):
`throughput = 3600 / avg_transaction_time` — with no robot-count factor —
and `total_transactions = throughput * 8`. -/
noncomputable def run_cases_metrics (avg_transaction_time : ℝ) : ℝ × ℝ :=
  (3600 / avg_transaction_time, (3600 / avg_transaction_time) * 8)

end SpyderRobo

namespace Streamlit

/-- `calculate_adjusted_travel_time` from `Spyder_Robo_Streamlit.py`
(lines 13-19): the same kinematic base time, multiplied by the traffic
multiplier and the heatmap factor, each first clamped to a minimum of 1.0. -/
noncomputable def calculate_adjusted_travel_time
    (distance_x distance_z speed_x speed_z accel_x accel_z
      traffic_multiplier heatmap_factor : ℝ) : ℝ :=
  let horizontal_time := 2 * Real.sqrt (distance_x / (2 * accel_x))
  let vertical_time := 2 * Real.sqrt (distance_z / (2 * accel_z))
  (horizontal_time + vertical_time) * max 1 traffic_multiplier * max 1 heatmap_factor

/-- The directed edge set inserted by `create_warehouse_graph` in
`Spyder_Robo_Streamlit.py` (lines 37-48): vertical edges within an aisle in
both directions, and horizontal edges between adjacent aisles in both
directions only at the first or last level.  Edge weights are positive reals
irrelevant to connectivity and are not carried here. -/
def gridEdges (num_aisles num_levels : ℕ) : List (Node × Node) :=
  (List.range num_aisles).flatMap fun aisle =>
    (List.range num_levels).flatMap fun level =>
      (if level + 1 < num_levels then
        [(Node.storage aisle level, Node.storage aisle (level + 1)),
         (Node.storage aisle (level + 1), Node.storage aisle level)]
       else []) ++
      (if aisle + 1 < num_aisles ∧ (level = 0 ∨ level = num_levels - 1) then
        [(Node.storage aisle level, Node.storage (aisle + 1) level),
         (Node.storage (aisle + 1) level, Node.storage aisle level)]
       else [])

/-- The fulfillment-zone edges inserted by `create_warehouse_graph`
(lines 50-61): every aisle is connected to the depot in both directions at
level `0` and at level `num_levels - 1`. -/
def fulfillmentEdges (num_aisles num_levels : ℕ) : List (Node × Node) :=
  (List.range num_aisles).flatMap fun aisle =>
    ([0, num_levels - 1] : List ℕ).flatMap fun level =>
      [(Node.storage aisle level, Node.depot), (Node.depot, Node.storage aisle level)]

/-- All directed edges of the graph built by `create_warehouse_graph`. -/
def create_warehouse_graph_edges (num_aisles num_levels : ℕ) : List (Node × Node) :=
  gridEdges num_aisles num_levels ++ fulfillmentEdges num_aisles num_levels

/-- One breadth step of reachability: keep the current set and add every head
of an edge whose tail is already reached. -/
def expandReach (edges : List (Node × Node)) (reached : List Node) : List Node :=
  reached ++ (edges.filter (fun e => decide (e.1 ∈ reached))).map (fun e => e.2)

/-- Nodes reachable from `src` along at most `fuel` edges. -/
def reachSet (edges : List (Node × Node)) (src : Node) : ℕ → List Node
  | 0 => [src]
  | fuel + 1 => expandReach edges (reachSet edges src fuel)

/-- Executable reachability test, embedding the existence question answered by
`nx.shortest_path_length` in `validate_graph_connectivity`. -/
def reachableB (edges : List (Node × Node)) (src tgt : Node) (fuel : ℕ) : Bool :=
  decide (tgt ∈ reachSet edges src fuel)

/-- The storage nodes `(aisle, level)` in the row-major order in which
`validate_graph_connectivity` (lines 87-94) visits them. -/
def storageNodes (num_aisles num_levels : ℕ) : List Node :=
  (List.range num_aisles).flatMap fun aisle =>
    (List.range num_levels).map fun level => Node.storage aisle level

/-- A fuel bound that dominates every simple path: the number of nodes. -/
def graphFuel (num_aisles num_levels : ℕ) : ℕ :=
  num_aisles * num_levels + 1

/-- `validate_graph_connectivity` (lines 87-94): visit each storage node and
raise (`Except.error`, carrying the offending node) at the first one with no
path to the fulfillment zone; return `ok` when all nodes reach it. -/
def validate_graph_connectivity (edges : List (Node × Node))
    (num_aisles num_levels : ℕ) : Except Node Unit :=
  match (storageNodes num_aisles num_levels).find?
      (fun n => ! reachableB edges n Node.depot (graphFuel num_aisles num_levels)) with
  | some n => Except.error n
  | none => Except.ok ()

/-- The graph phase of `main` (lines 558-567): run the connectivity check and
abort with the error before the simulation `sim` is ever invoked; only on
success is the simulation run. -/
def main_graph_phase {β : Type} (edges : List (Node × Node))
    (num_aisles num_levels : ℕ) (sim : Unit → β) : Except Node β :=
  match validate_graph_connectivity edges num_aisles num_levels with
  | Except.error n => Except.error n
  | Except.ok () => Except.ok (sim ())

/-- One row of `tracking_data` as appended by
`simulate_transactions_with_tracking` (lines 227-236).  The numeric type is a
parameter so that concrete runs can be evaluated over `ℚ`. -/
structure TransactionRecord (α : Type) where
  transaction_id : ℕ
  robot_id : ℕ
  start_node : Node
  storage_node : Node
  travel_time : α
  overlapping_robots : ℕ
  delay : α
  total_transaction_time : α
deriving DecidableEq, Repr

/-- An entry of `log_issues`; the Python code appends f-strings, modelled here
as a datatype carrying the interpolated data. -/
inductive Issue where
  | noOrders : Issue
  | invalidPath : ℕ → List Node → Issue
  | noPath : ℕ → Issue
deriving DecidableEq, Repr

/-- `validate_path` (lines 133-156) on one consecutive pair of path nodes:
pairs touching the fulfillment zone are skipped; otherwise no diagonal move,
and a horizontal move is allowed only when the current level is the first or
the last. -/
def pairLegal (num_levels : ℕ) : Node → Node → Bool
  | Node.storage a1 l1, Node.storage a2 l2 =>
    let aisle_diff := ((a1 : ℤ) - (a2 : ℤ)).natAbs
    let level_diff := ((l1 : ℤ) - (l2 : ℤ)).natAbs
    if 0 < aisle_diff ∧ 0 < level_diff then false
    else if 0 < aisle_diff ∧ ¬(l1 = 0 ∨ l1 = num_levels - 1) then false
    else if 0 < level_diff ∧ 0 < aisle_diff then false
    else true
  | _, _ => true

/-- `validate_path` (lines 133-156): every consecutive pair must be legal. -/
def validate_path (num_levels : ℕ) : List Node → Bool
  | [] => true
  | [_] => true
  | a :: b :: rest => pairLegal num_levels a b && validate_path num_levels (b :: rest)

/-- The simulator state threaded through the per-order loop of
`simulate_transactions_with_tracking` (lines 168-239). -/
structure SimState (α : Type) where
  total_time : α
  robot_positions : List Node
  tracking_data : List (TransactionRecord α)
  log_issues : List Issue
  robot_assignment_counter : ℕ

/-- The number of earlier tracking entries targeting the same storage node
(line 220-222: `sum(1 for entry in tracking_data if entry["storage_node"] ==
storage_node)`). -/
def overlapCount {α : Type} (tracking_data : List (TransactionRecord α))
    (storage_node : Node) : ℕ :=
  (tracking_data.filter (fun e => decide (e.storage_node = storage_node))).length

variable {α : Type} [LinearOrderedField α]

/-- The body of the per-order loop of `simulate_transactions_with_tracking`
(lines 187-242).  `findPath s t` embeds `nx.shortest_path(..., source=s,
target=t, weight="weight")`, returning `none` where networkx raises
`NetworkXNoPath`; `jitter` embeds the `random.uniform(1.5, 3.5)` draw for a
given transaction id.  The order is an `(index, storage_node)` pair from
`enumerate(orders)`. -/
def simStep (num_robots num_levels : ℕ) (extraction_time traffic_multiplier : α)
    (findPath : Node → Node → Option (List Node)) (jitter : ℕ → α)
    (st : SimState α) (order : ℕ × Node) : SimState α :=
  let transaction_id := order.1
  let storage_node := order.2
  let chosen_robot := st.robot_assignment_counter % num_robots
  let start_node := st.robot_positions.getD chosen_robot Node.depot
  match findPath start_node storage_node, findPath storage_node Node.depot with
  | some path_to_storage, some path_to_fulfillment =>
    let total_path := path_to_storage ++ path_to_fulfillment
    if validate_path num_levels total_path then
      let transaction_time :=
        (path_to_storage.length : α) * traffic_multiplier + extraction_time
          + (path_to_fulfillment.length : α) * traffic_multiplier
      let overlaps :=
        if 1 < num_robots then overlapCount st.tracking_data storage_node else 0
      let delay : α :=
        if 1 < num_robots then (overlaps : α) * jitter transaction_id * traffic_multiplier
        else 0
      { total_time := st.total_time + transaction_time
        robot_positions := st.robot_positions.set chosen_robot Node.depot
        tracking_data := st.tracking_data ++
          [{ transaction_id := transaction_id
             robot_id := chosen_robot
             start_node := start_node
             storage_node := storage_node
             travel_time := transaction_time
             overlapping_robots := overlaps
             delay := delay
             total_transaction_time := transaction_time + delay }]
        log_issues := st.log_issues
        robot_assignment_counter := st.robot_assignment_counter + 1 }
    else
      { st with
          log_issues := st.log_issues ++ [Issue.invalidPath chosen_robot total_path]
          robot_assignment_counter := st.robot_assignment_counter + 1 }
  | _, _ =>
    { st with
        log_issues := st.log_issues ++ [Issue.noPath transaction_id]
        robot_assignment_counter := st.robot_assignment_counter + 1 }

/-- The initial simulator state (lines 168-172): all robots start at the
fulfillment zone, all accumulators empty. -/
def initState (α : Type) [LinearOrderedField α] (num_robots : ℕ) : SimState α :=
  { total_time := 0
    robot_positions := List.replicate num_robots Node.depot
    tracking_data := []
    log_issues := []
    robot_assignment_counter := 0 }

/-- `simulate_transactions_with_tracking` (lines 162-247).  The randomly
generated order list (`random.choices`, line 178) and the number of levels
read off the graph (line 175) are injected parameters; the function returns
`(average transaction time, tracking_data, log_issues)`. -/
def simulate_transactions_with_tracking (num_robots num_levels : ℕ)
    (extraction_time traffic_multiplier : α) (orders : List Node)
    (findPath : Node → Node → Option (List Node)) (jitter : ℕ → α) :
    α × List (TransactionRecord α) × List Issue :=
  if orders.isEmpty then (0, [], [Issue.noOrders])
  else
    let final := orders.enum.foldl
      (simStep num_robots num_levels extraction_time traffic_multiplier findPath jitter)
      (initState α num_robots)
    let avg := if 0 < orders.length then final.total_time / (orders.length : α) else 0
    (avg, final.tracking_data, final.log_issues)

/-- The tracking log returned by `simulate_transactions_with_tracking`. -/
def simRecords (num_robots num_levels : ℕ) (extraction_time traffic_multiplier : α)
    (orders : List Node) (findPath : Node → Node → Option (List Node))
    (jitter : ℕ → α) : List (TransactionRecord α) :=
  (simulate_transactions_with_tracking num_robots num_levels extraction_time
    traffic_multiplier orders findPath jitter).2.1

/-- A placeholder record used as the default of `List.getD` lookups into
tracking logs. -/
def defaultRecord (α : Type) [LinearOrderedField α] : TransactionRecord α :=
  { transaction_id := 0, robot_id := 0, start_node := Node.depot,
    storage_node := Node.depot, travel_time := 0, overlapping_robots := 0,
    delay := 0, total_transaction_time := 0 }

/-- The per-record overlap rule actually implemented at lines 216-224: the
recorded overlap count is the number of earlier same-target records when more
than one robot is in the fleet, and `0` otherwise. -/
def overlapRecordSpec {α : Type} (num_robots : ℕ)
    (recs : List (TransactionRecord α)) : Prop :=
  ∀ i (h : i < recs.length),
    (recs.get ⟨i, h⟩).overlapping_robots
      = if 1 < num_robots then
          overlapCount (recs.take i) ((recs.get ⟨i, h⟩).storage_node)
        else 0

/-- The throughput block of `main` (lines 582-587): when the average
transaction time is positive, `throughput = (3600 / avg) * num_robots` and
`total_transactions = throughput * 8`; otherwise both are 0. -/
noncomputable def main_metrics (avg_transaction_time : ℝ) (num_robots : ℕ) : ℝ × ℝ :=
  if 0 < avg_transaction_time then
    ((3600 / avg_transaction_time) * (num_robots : ℝ),
     (3600 / avg_transaction_time) * (num_robots : ℝ) * 8)
  else (0, 0)

/-- `calculate_cost_per_transaction` from `Spyder_Robo_Streamlit.py`
(lines 514-528): system cost plus energy cost over the distance proxy
(the sum of the records' `travel_time` fields) plus maintenance, divided by
`total_transactions` only when that is positive, with sentinel 0 otherwise. -/
def calculate_cost_per_transaction {α : Type} [LinearOrderedField α]
    (num_robots upgrade_cost total_transactions energy_consumption_per_meter : α)
    (tracking_data : List (TransactionRecord α)) (maintenance_cost : α) : α :=
  let base_cost_per_robot : α := 20
  let distance_traveled := (tracking_data.map (fun entry => entry.travel_time)).sum
  let energy_cost := energy_consumption_per_meter * distance_traveled
  let system_cost := num_robots * (base_cost_per_robot + upgrade_cost)
    + energy_cost + maintenance_cost
  if 0 < total_transactions then system_cost / total_transactions else 0

/-- The scalar metrics computed by `analyze_robot_overlaps`
(lines 340-372).  The per-aisle `overlap_summary` dictionary is not modelled:
no claim refers to it. -/
structure OverlapMetrics (α : Type) where
  total_overlaps : ℕ
  total_delay : α
  average_delay : α
  total_cost : α

/-- The loop body of `analyze_robot_overlaps`: entries with a positive
overlap count contribute their overlaps, delay and delay cost. -/
def overlapFoldStep {α : Type} [LinearOrderedField α] (delay_cost_per_second : α)
    (acc : ℕ × α × α) (entry : TransactionRecord α) : ℕ × α × α :=
  if 0 < entry.overlapping_robots then
    (acc.1 + entry.overlapping_robots, acc.2.1 + entry.delay,
     acc.2.2 + entry.delay * delay_cost_per_second)
  else acc

/-- `analyze_robot_overlaps` (lines 340-372): reduce the tracking log to
total overlaps, total delay, average delay per overlap (0 when there are no
overlaps) and total delay cost. -/
def analyze_robot_overlaps {α : Type} [LinearOrderedField α]
    (tracking_data : List (TransactionRecord α)) (delay_cost_per_second : α) :
    OverlapMetrics α :=
  let acc := tracking_data.foldl (overlapFoldStep delay_cost_per_second) (0, 0, 0)
  { total_overlaps := acc.1
    total_delay := acc.2.1
    average_delay := if 0 < acc.1 then acc.2.1 / (acc.1 : α) else 0
    total_cost := acc.2.2 }

/-- The order in which `queue.PriorityQueue` yields the
`(priority, location)` tuples pushed by `prioritize_orders` (lines 425-446):
Python's lexicographic tuple comparison — priority first, then the location
tuple.  The relation is stated on the original `(location, priority)`
orders. -/
def pqLe (x y : (ℕ × ℕ) × ℕ) : Prop :=
  x.2 < y.2 ∨ (x.2 = y.2 ∧ (x.1.1 < y.1.1 ∨ (x.1.1 = y.1.1 ∧ x.1.2 ≤ y.1.2)))

instance : DecidableRel pqLe := fun x y => by
  unfold pqLe
  infer_instance

instance : IsTotal ((ℕ × ℕ) × ℕ) pqLe :=
  ⟨by intro a b; unfold pqLe; omega⟩

instance : IsTrans ((ℕ × ℕ) × ℕ) pqLe :=
  ⟨by intro a b c hab hbc; unfold pqLe at hab hbc ⊢; omega⟩

/-- `prioritize_orders` (lines 425-446): push every `(location, priority)`
order as `(priority, location)` into a `PriorityQueue` and pop them all.
The heap yields the entries in ascending lexicographic tuple order, and the
key is the whole entry, so the popped sequence is the input sorted by
`pqLe`; an insertion sort by `pqLe` is therefore an exact model. -/
def prioritize_orders (orders : List ((ℕ × ℕ) × ℕ)) : List (ℕ × ℕ) :=
  (orders.insertionSort pqLe).map (fun order => order.1)

end Streamlit

/-- A fold preserves any invariant preserved by each step. -/
theorem foldl_preserves {σ β : Type} (f : σ → β → σ) (P : σ → Prop)
    (hstep : ∀ s b, P s → P (f s b)) :
    ∀ (l : List β) (s : σ), P s → P (l.foldl f s) := by
  intro l
  induction l with
  | nil => intro s hs; exact hs
  | cons b rest ih => intro s hs; exact ih (f s b) (hstep s b hs)

namespace Streamlit

theorem mem_expandReach_of_mem {edges : List (Node × Node)} {reached : List Node}
    {x : Node} (hx : x ∈ reached) : x ∈ expandReach edges reached :=
  List.mem_append_left _ hx

theorem mem_reachSet_succ_of_mem {edges : List (Node × Node)} {src x : Node} {fuel : ℕ}
    (hx : x ∈ reachSet edges src fuel) : x ∈ reachSet edges src (fuel + 1) :=
  mem_expandReach_of_mem hx

theorem reachSet_mono {edges : List (Node × Node)} {src x : Node} {fuel fuel' : ℕ}
    (hle : fuel ≤ fuel') (hx : x ∈ reachSet edges src fuel) :
    x ∈ reachSet edges src fuel' := by
  induction hle with
  | refl => exact hx
  | step _ ih => exact mem_reachSet_succ_of_mem ih

theorem mem_reachSet_step {edges : List (Node × Node)} {src u v : Node} {fuel : ℕ}
    (hu : u ∈ reachSet edges src fuel) (he : (u, v) ∈ edges) :
    v ∈ reachSet edges src (fuel + 1) := by
  refine List.mem_append_right _ ?_
  refine List.mem_map.mpr ⟨(u, v), ?_, rfl⟩
  exact List.mem_filter.mpr ⟨he, by simpa using hu⟩

/-- The downward vertical edge `(a, l+1) → (a, l)` is in the constructed
edge set whenever the coordinates are in range. -/
theorem vertical_down_edge_mem {A L a l : ℕ} (ha : a < A) (hl : l + 1 < L) :
    (Node.storage a (l + 1), Node.storage a l) ∈ create_warehouse_graph_edges A L := by
  refine List.mem_append_left _ ?_
  refine List.mem_flatMap.mpr ⟨a, List.mem_range.mpr ha, ?_⟩
  refine List.mem_flatMap.mpr ⟨l, List.mem_range.mpr (by omega), ?_⟩
  refine List.mem_append_left _ ?_
  simp [hl]

/-- The edge from `(a, 0)` to the fulfillment zone is in the constructed
edge set for every aisle in range. -/
theorem depot_edge_mem {A L a : ℕ} (ha : a < A) :
    (Node.storage a 0, Node.depot) ∈ create_warehouse_graph_edges A L := by
  refine List.mem_append_right _ ?_
  refine List.mem_flatMap.mpr ⟨a, List.mem_range.mpr ha, ?_⟩
  refine List.mem_flatMap.mpr ⟨0, by simp, ?_⟩
  simp

/-- Descending an aisle: from `(a, l)` the node `(a, l - k)` is reached in
`k` steps. -/
theorem storage_descends {A L a l : ℕ} (ha : a < A) (hl : l < L) :
    ∀ k, k ≤ l →
      Node.storage a (l - k) ∈ reachSet (create_warehouse_graph_edges A L)
        (Node.storage a l) k := by
  intro k
  induction k with
  | zero => intro _; simp [reachSet]
  | succ k ih =>
    intro hk
    have hmem := ih (by omega)
    have hedge : (Node.storage a (l - k), Node.storage a (l - (k + 1)))
        ∈ create_warehouse_graph_edges A L := by
      have h1 : l - (k + 1) + 1 = l - k := by omega
      have h2 : l - (k + 1) + 1 < L := by omega
      have := vertical_down_edge_mem (A := A) (L := L) (a := a) (l := l - (k + 1)) ha h2
      rwa [h1] at this
    exact mem_reachSet_step hmem hedge

theorem storage_node_mem_storageNodes {A L a l : ℕ} (ha : a < A) (hl : l < L) :
    Node.storage a l ∈ storageNodes A L := by
  refine List.mem_flatMap.mpr ⟨a, List.mem_range.mpr ha, ?_⟩
  exact List.mem_map.mpr ⟨l, List.mem_range.mpr hl, rfl⟩

theorem mem_storageNodes_elim {A L : ℕ} {n : Node} (hn : n ∈ storageNodes A L) :
    ∃ a, ∃ l, a < A ∧ l < L ∧ n = Node.storage a l := by
  rcases List.mem_flatMap.mp hn with ⟨a, ha, hn'⟩
  rcases List.mem_map.mp hn' with ⟨l, hl, rfl⟩
  exact ⟨a, l, List.mem_range.mp ha, List.mem_range.mp hl, rfl⟩

/-- Every storage node of the constructed warehouse graph reaches the depot
within the fuel bound. -/
theorem storage_reaches_depot {A L a l : ℕ} (hA : 0 < A) (ha : a < A) (hl : l < L) :
    reachableB (create_warehouse_graph_edges A L) (Node.storage a l) Node.depot
      (graphFuel A L) = true := by
  have hzero : Node.storage a 0 ∈ reachSet (create_warehouse_graph_edges A L)
      (Node.storage a l) l := by
    have := storage_descends (A := A) (L := L) ha hl l le_rfl
    simpa using this
  have hdep : Node.depot ∈ reachSet (create_warehouse_graph_edges A L)
      (Node.storage a l) (l + 1) :=
    mem_reachSet_step hzero (depot_edge_mem ha)
  have hL : L ≤ A * L := Nat.le_mul_of_pos_left L hA
  have hle : l + 1 ≤ graphFuel A L := by
    unfold graphFuel
    omega
  exact decide_eq_true_iff.mpr (reachSet_mono hle hdep)

end Streamlit

/-- C1: for non-negative distances and positive accelerations the travel-time
functions return exactly `2*sqrt(dx/(2*ax)) + 2*sqrt(dz/(2*az))`; the base part
of the adjusted variant (multiplier and factor 1) agrees with it; and in the
concrete 2-aisle, 2-level configuration with `aisle_length = 10`,
`level_height = 5`, accelerations `0.5`, the `Spyder_Robo.py` edge weight for
node `(1,1)` is exactly `2*sqrt 5 + 2*sqrt (5/2)`. -/
theorem travel_time_formula (dx dz sx sz ax az : ℝ)
    (hdx : 0 ≤ dx) (hdz : 0 ≤ dz) (hax : 0 < ax) (haz : 0 < az) :
    SpyderRobo.calculate_travel_time dx dz sx sz ax az
        = 2 * Real.sqrt (dx / (2 * ax)) + 2 * Real.sqrt (dz / (2 * az))
      ∧ Streamlit.calculate_adjusted_travel_time dx dz sx sz ax az 1 1
        = 2 * Real.sqrt (dx / (2 * ax)) + 2 * Real.sqrt (dz / (2 * az))
      ∧ SpyderRobo.retrieval_edge_weight 2 2 10 5 1 1 (1/2) (1/2) 1 1
        = 2 * Real.sqrt 5 + 2 * Real.sqrt (5/2) := by
  refine ⟨rfl, ?_, ?_⟩
  · simp [Streamlit.calculate_adjusted_travel_time]
  · unfold SpyderRobo.retrieval_edge_weight SpyderRobo.calculate_travel_time
    norm_num

/-- Witness for C1: the formula evaluated at `dx = 1, dz = 0, ax = az = 1/2`. -/
theorem travel_time_formula_witness :
    SpyderRobo.calculate_travel_time 1 0 1 1 (1/2) (1/2)
      = 2 * Real.sqrt (1 / (2 * (1/2))) + 2 * Real.sqrt (0 / (2 * (1/2))) :=
  (travel_time_formula 1 0 1 1 (1/2) (1/2) (by norm_num) (by norm_num)
    (by norm_num) (by norm_num)).1

/-- C8: the adjusted travel time is monotone non-decreasing in the traffic
multiplier and in the heatmap factor, and any multiplier or factor at most 1
is clamped to 1, so values below 1 behave exactly like 1 (in particular a
factor of 0.5). -/
theorem adjusted_travel_time_monotone_clamped (dx dz sx sz ax az : ℝ) :
    (∀ m m' h : ℝ, m ≤ m' →
        Streamlit.calculate_adjusted_travel_time dx dz sx sz ax az m h
          ≤ Streamlit.calculate_adjusted_travel_time dx dz sx sz ax az m' h)
      ∧ (∀ m h h' : ℝ, h ≤ h' →
        Streamlit.calculate_adjusted_travel_time dx dz sx sz ax az m h
          ≤ Streamlit.calculate_adjusted_travel_time dx dz sx sz ax az m h')
      ∧ (∀ m h : ℝ, m ≤ 1 → h ≤ 1 →
        Streamlit.calculate_adjusted_travel_time dx dz sx sz ax az m h
          = Streamlit.calculate_adjusted_travel_time dx dz sx sz ax az 1 1)
      ∧ Streamlit.calculate_adjusted_travel_time dx dz sx sz ax az 1 (1/2)
          = Streamlit.calculate_adjusted_travel_time dx dz sx sz ax az 1 1 := by
  have hbase : (0:ℝ) ≤ 2 * Real.sqrt (dx / (2 * ax)) + 2 * Real.sqrt (dz / (2 * az)) := by
    positivity
  refine ⟨?_, ?_, ?_, ?_⟩
  · intro m m' h hm
    unfold Streamlit.calculate_adjusted_travel_time
    have h1 : max (1:ℝ) m ≤ max 1 m' := max_le_max le_rfl hm
    have h2 : (0:ℝ) ≤ max 1 h := le_trans zero_le_one (le_max_left 1 h)
    exact mul_le_mul_of_nonneg_right (mul_le_mul_of_nonneg_left h1 hbase) h2
  · intro m h h' hh
    unfold Streamlit.calculate_adjusted_travel_time
    have h1 : max (1:ℝ) h ≤ max 1 h' := max_le_max le_rfl hh
    have h2 : (0:ℝ) ≤ (2 * Real.sqrt (dx / (2 * ax)) + 2 * Real.sqrt (dz / (2 * az))) * max 1 m :=
      mul_nonneg hbase (le_trans zero_le_one (le_max_left 1 m))
    exact mul_le_mul_of_nonneg_left h1 h2
  · intro m h hm hh
    unfold Streamlit.calculate_adjusted_travel_time
    rw [max_eq_left hm, max_eq_left hh, max_self]
  · unfold Streamlit.calculate_adjusted_travel_time
    rw [max_eq_left (by norm_num : (1:ℝ)/2 ≤ 1), max_self]

/-- Witness for C8: with all distances and accelerations 1, a heatmap factor
of 0.7 below the clamp behaves exactly like the baseline 1. -/
theorem adjusted_travel_time_monotone_clamped_witness :
    Streamlit.calculate_adjusted_travel_time 1 1 1 1 1 1 (7/10) (1/2)
      = Streamlit.calculate_adjusted_travel_time 1 1 1 1 1 1 1 1 :=
  (adjusted_travel_time_monotone_clamped 1 1 1 1 1 1).2.2.1 (7/10) (1/2)
    (by norm_num) (by norm_num)

/-- C2: for every configuration with at least one aisle and one level, (a)
every storage node of the constructed graph has a directed path to the depot,
(b) the explicit post-construction connectivity check therefore passes on
the constructed graph, and (c) on any graph in which some storage node cannot
reach the depot, `validate_graph_connectivity` raises a connectivity error
and `main` aborts before the simulation is invoked. -/
theorem graph_connectivity_validated (A L : ℕ) (hA : 0 < A) (hL : 0 < L) :
    (∀ a, a < A → ∀ l, l < L →
        Streamlit.reachableB (Streamlit.create_warehouse_graph_edges A L)
          (Node.storage a l) Node.depot (Streamlit.graphFuel A L) = true)
      ∧ Streamlit.validate_graph_connectivity
          (Streamlit.create_warehouse_graph_edges A L) A L = Except.ok ()
      ∧ (∀ edges : List (Node × Node),
          (∃ a, a < A ∧ ∃ l, l < L ∧
            Streamlit.reachableB edges (Node.storage a l) Node.depot
              (Streamlit.graphFuel A L) = false) →
          ∃ n, Streamlit.validate_graph_connectivity edges A L = Except.error n
            ∧ ∀ (β : Type) (sim : Unit → β),
                Streamlit.main_graph_phase edges A L sim = Except.error n) := by
  have hall : ∀ a, a < A → ∀ l, l < L →
      Streamlit.reachableB (Streamlit.create_warehouse_graph_edges A L)
        (Node.storage a l) Node.depot (Streamlit.graphFuel A L) = true :=
    fun a ha l hl => Streamlit.storage_reaches_depot hA ha hl
  refine ⟨hall, ?_, ?_⟩
  · unfold Streamlit.validate_graph_connectivity
    have hnone : (Streamlit.storageNodes A L).find?
        (fun n => ! Streamlit.reachableB (Streamlit.create_warehouse_graph_edges A L)
          n Node.depot (Streamlit.graphFuel A L)) = none := by
      rw [List.find?_eq_none]
      intro n hn
      rcases Streamlit.mem_storageNodes_elim hn with ⟨a, l, ha, hl, rfl⟩
      simp [hall a ha l hl]
    rw [hnone]
  · intro edges ⟨a, ha, l, hl, hfail⟩
    have hsome : ((Streamlit.storageNodes A L).find?
        (fun n => ! Streamlit.reachableB edges n Node.depot
          (Streamlit.graphFuel A L))).isSome := by
      rw [List.find?_isSome]
      exact ⟨Node.storage a l, Streamlit.storage_node_mem_storageNodes ha hl,
        by simp [hfail]⟩
    rcases Option.isSome_iff_exists.mp hsome with ⟨n, hn⟩
    refine ⟨n, ?_, ?_⟩
    · unfold Streamlit.validate_graph_connectivity
      rw [hn]
    · intro β sim
      unfold Streamlit.main_graph_phase Streamlit.validate_graph_connectivity
      rw [hn]

/-- Witness for C2: the 2-aisle, 2-level configuration. -/
theorem graph_connectivity_validated_witness :
    (0:ℕ) < 2 ∧
      Streamlit.validate_graph_connectivity
        (Streamlit.create_warehouse_graph_edges 2 2) 2 2 = Except.ok () :=
  ⟨by decide, (graph_connectivity_validated 2 2 (by decide) (by decide)).2.1⟩

/-- C5: an order whose path is missing (`NetworkXNoPath` from either routing
call) or fails `validate_path` is skipped with one issue logged: it appends no
`TransactionRecord`, adds nothing to the running total used for the average
transaction time, and leaves the robot fleet untouched, so it contributes no
overlaps and no cost to any aggregate. -/
theorem skipped_order_excluded (α : Type) [LinearOrderedField α]
    (num_robots num_levels : ℕ) (extraction_time traffic_multiplier : α)
    (findPath : Node → Node → Option (List Node)) (jitter : ℕ → α)
    (st : Streamlit.SimState α) (transaction_id : ℕ) (storage_node : Node)
    (hskip : ¬ ∃ path_to_storage path_to_fulfillment,
      findPath (st.robot_positions.getD
          (st.robot_assignment_counter % num_robots) Node.depot) storage_node
        = some path_to_storage
      ∧ findPath storage_node Node.depot = some path_to_fulfillment
      ∧ Streamlit.validate_path num_levels
          (path_to_storage ++ path_to_fulfillment) = true) :
    (∃ issue, Streamlit.simStep num_robots num_levels extraction_time
        traffic_multiplier findPath jitter st (transaction_id, storage_node)
      = { st with log_issues := st.log_issues ++ [issue],
                  robot_assignment_counter := st.robot_assignment_counter + 1 })
    ∧ (Streamlit.simStep num_robots num_levels extraction_time
        traffic_multiplier findPath jitter st
          (transaction_id, storage_node)).tracking_data = st.tracking_data
    ∧ (Streamlit.simStep num_robots num_levels extraction_time
        traffic_multiplier findPath jitter st
          (transaction_id, storage_node)).total_time = st.total_time
    ∧ (Streamlit.simStep num_robots num_levels extraction_time
        traffic_multiplier findPath jitter st
          (transaction_id, storage_node)).robot_positions = st.robot_positions := by
  have key : ∃ issue, Streamlit.simStep num_robots num_levels extraction_time
      traffic_multiplier findPath jitter st (transaction_id, storage_node)
    = { st with log_issues := st.log_issues ++ [issue],
                robot_assignment_counter := st.robot_assignment_counter + 1 } := by
    unfold Streamlit.simStep
    dsimp only
    split
    next path_to_storage path_to_fulfillment h1 h2 =>
      split
      next hvalid =>
        exact absurd ⟨path_to_storage, path_to_fulfillment, h1, h2, hvalid⟩ hskip
      next hinvalid => exact ⟨_, rfl⟩
    next => exact ⟨_, rfl⟩
  obtain ⟨issue, hissue⟩ := key
  exact ⟨⟨issue, hissue⟩, by rw [hissue], by rw [hissue], by rw [hissue]⟩

/-- Witness for C5: with a routing oracle that always fails, the single order
is skipped and the tracking log stays empty. -/
theorem skipped_order_excluded_witness :
    (Streamlit.simStep (α := ℚ) 1 1 2 1 (fun _ _ => none) (fun _ => 2)
      (Streamlit.initState ℚ 1) (0, Node.storage 0 0)).tracking_data
      = (Streamlit.initState ℚ 1).tracking_data := by
  have h := skipped_order_excluded ℚ 1 1 2 1 (fun _ _ => none) (fun _ => 2)
    (Streamlit.initState ℚ 1) 0 (Node.storage 0 0) (by simp)
  exact h.2.1

theorem getD_eq_of_all {l : List Node} {d : Node} (h : ∀ p ∈ l, p = d) :
    ∀ i, l.getD i d = d := by
  induction l with
  | nil => intro i; simp [List.getD]
  | cons x xs ih =>
    intro i
    cases i with
    | zero => exact h x (List.mem_cons_self x xs)
    | succ j => exact ih (fun p hp => h p (List.mem_cons_of_mem x hp)) j

/-- The depot invariant: if every robot stands at the fulfillment zone and
every recorded transaction started there, one simulation step preserves
both facts. -/
theorem simStep_preserves_depot_invariant {α : Type} [LinearOrderedField α]
    (num_robots num_levels : ℕ) (extraction_time traffic_multiplier : α)
    (findPath : Node → Node → Option (List Node)) (jitter : ℕ → α)
    (st : Streamlit.SimState α) (order : ℕ × Node)
    (hpos : ∀ p ∈ st.robot_positions, p = Node.depot)
    (hrec : ∀ r ∈ st.tracking_data, r.start_node = Node.depot) :
    (∀ p ∈ (Streamlit.simStep num_robots num_levels extraction_time
        traffic_multiplier findPath jitter st order).robot_positions, p = Node.depot)
    ∧ (∀ r ∈ (Streamlit.simStep num_robots num_levels extraction_time
        traffic_multiplier findPath jitter st order).tracking_data,
          r.start_node = Node.depot) := by
  unfold Streamlit.simStep
  dsimp only
  split
  next path_to_storage path_to_fulfillment h1 h2 =>
    split
    next hvalid =>
      constructor
      · intro p hp
        rcases List.mem_or_eq_of_mem_set hp with hmem | hd
        · exact hpos p hmem
        · exact hd
      · intro r hr
        rcases List.mem_append.mp hr with hold | hnew
        · exact hrec r hold
        · rcases List.mem_singleton.mp hnew with rfl
          exact getD_eq_of_all hpos _
    next hinvalid => exact ⟨hpos, hrec⟩
  next => exact ⟨hpos, hrec⟩

/-- C10: every robot position is the fulfillment zone whenever an order is
assigned (robots are created there and reset there after each transaction),
so the `start_node` of every record in the tracking log returned by
`simulate_transactions_with_tracking` is the fulfillment zone. -/
theorem records_start_at_fulfillment_zone (α : Type) [LinearOrderedField α]
    (num_robots num_levels : ℕ) (extraction_time traffic_multiplier : α)
    (orders : List Node) (findPath : Node → Node → Option (List Node))
    (jitter : ℕ → α) :
    ∀ r ∈ Streamlit.simRecords num_robots num_levels extraction_time
        traffic_multiplier orders findPath jitter,
      r.start_node = Node.depot := by
  intro r hr
  unfold Streamlit.simRecords Streamlit.simulate_transactions_with_tracking at hr
  split at hr
  · simp at hr
  · dsimp only at hr
    have hinv := foldl_preserves
      (Streamlit.simStep num_robots num_levels extraction_time traffic_multiplier
        findPath jitter)
      (fun s => (∀ p ∈ s.robot_positions, p = Node.depot)
        ∧ (∀ r' ∈ s.tracking_data, r'.start_node = Node.depot))
      (fun s o hs => simStep_preserves_depot_invariant num_robots num_levels
        extraction_time traffic_multiplier findPath jitter s o hs.1 hs.2)
      orders.enum (Streamlit.initState α num_robots)
      ⟨fun p hp => List.eq_of_mem_replicate hp, fun r' hr' => absurd hr' (List.not_mem_nil r')⟩
    exact hinv.2 r hr

/-- Witness for C10: the one transaction of a concrete single-robot run is
recorded with the fulfillment zone as its start node. -/
theorem records_start_at_fulfillment_zone_witness :
    ({ transaction_id := 0, robot_id := 0, start_node := Node.depot,
       storage_node := Node.storage 0 0, travel_time := 6,
       overlapping_robots := 0, delay := 0, total_transaction_time := 6 } :
        Streamlit.TransactionRecord ℚ).start_node = Node.depot := by
  apply records_start_at_fulfillment_zone ℚ 1 1 2 1 [Node.storage 0 0]
    (fun s t => some [s, t]) (fun _ => 2)
  have h : Streamlit.simRecords (α := ℚ) 1 1 2 1 [Node.storage 0 0]
      (fun s t => some [s, t]) (fun _ => 2)
      = [{ transaction_id := 0, robot_id := 0, start_node := Node.depot,
           storage_node := Node.storage 0 0, travel_time := 6,
           overlapping_robots := 0, delay := 0, total_transaction_time := 6 }] := by
    simp only [Streamlit.simRecords, Streamlit.simulate_transactions_with_tracking,
      List.enum, List.enumFrom, List.foldl]
    norm_num [Streamlit.simStep, Streamlit.initState, Streamlit.validate_path,
      Streamlit.pairLegal, Streamlit.overlapCount]
  rw [h]
  exact List.mem_singleton_self _

/-- One simulation step preserves the per-record overlap rule: a skipped
order leaves the log unchanged, and a successful order appends a record whose
overlap field is computed from exactly the records before it. -/
theorem simStep_preserves_overlapSpec {α : Type} [LinearOrderedField α]
    (num_robots num_levels : ℕ) (extraction_time traffic_multiplier : α)
    (findPath : Node → Node → Option (List Node)) (jitter : ℕ → α)
    (st : Streamlit.SimState α) (order : ℕ × Node)
    (hspec : Streamlit.overlapRecordSpec num_robots st.tracking_data) :
    Streamlit.overlapRecordSpec num_robots
      (Streamlit.simStep num_robots num_levels extraction_time
        traffic_multiplier findPath jitter st order).tracking_data := by
  unfold Streamlit.simStep
  dsimp only
  split
  next path_to_storage path_to_fulfillment h1 h2 =>
    split
    next hvalid =>
      intro i hi
      dsimp only at hi ⊢
      rcases Nat.lt_or_ge i st.tracking_data.length with hlt | hge
      · rw [List.get_append_left _ _ hlt,
          List.take_append_of_le_length (Nat.le_of_lt hlt)]
        exact hspec i hlt
      · have hlen : i = st.tracking_data.length := by
          rw [List.length_append] at hi
          simp only [List.length_singleton] at hi
          omega
        subst hlen
        rw [List.get_append_right _ _ hge]
        · rw [List.take_left]
          simp
        · simp
    next hinvalid => exact hspec
  next => exact hspec

/-- C6 (amended): for every record of the tracking log, the recorded overlap
count equals the number of earlier records targeting the same storage node
when more than one robot is in the fleet, and is `0` whenever at most one
robot is in the fleet — even if earlier records share the target. -/
theorem overlap_count_rule (α : Type) [LinearOrderedField α]
    (num_robots num_levels : ℕ) (extraction_time traffic_multiplier : α)
    (orders : List Node) (findPath : Node → Node → Option (List Node))
    (jitter : ℕ → α) (i : ℕ)
    (h : i < (Streamlit.simRecords num_robots num_levels extraction_time
        traffic_multiplier orders findPath jitter).length) :
    ((Streamlit.simRecords num_robots num_levels extraction_time
        traffic_multiplier orders findPath jitter).get ⟨i, h⟩).overlapping_robots
      = if 1 < num_robots then
          Streamlit.overlapCount
            ((Streamlit.simRecords num_robots num_levels extraction_time
              traffic_multiplier orders findPath jitter).take i)
            (((Streamlit.simRecords num_robots num_levels extraction_time
              traffic_multiplier orders findPath jitter).get ⟨i, h⟩).storage_node)
        else 0 := by
  have hspec : Streamlit.overlapRecordSpec num_robots
      (Streamlit.simRecords num_robots num_levels extraction_time
        traffic_multiplier orders findPath jitter) := by
    unfold Streamlit.simRecords Streamlit.simulate_transactions_with_tracking
    split
    · intro j hj
      simp at hj
    · dsimp only
      exact (foldl_preserves
        (Streamlit.simStep num_robots num_levels extraction_time
          traffic_multiplier findPath jitter)
        (fun s => Streamlit.overlapRecordSpec num_robots s.tracking_data)
        (fun s o hs => simStep_preserves_overlapSpec num_robots num_levels
          extraction_time traffic_multiplier findPath jitter s o hs)
        orders.enum (Streamlit.initState α num_robots)
        (fun j hj => absurd hj (by simp [Streamlit.initState])))
  exact hspec i h

/-- C6 counterexample: a single-robot run with two orders for the same
storage node.  The second record has recorded overlap count `0`, yet exactly
one earlier record in the log targets the same storage node, so the recorded
count does not equal the number of prior same-target records. -/
theorem overlap_count_counterexample :
    ((Streamlit.simRecords (α := ℚ) 1 1 2 1 [Node.storage 0 0, Node.storage 0 0]
        (fun s t => some [s, t]) (fun _ => 2)).getD 1
          (Streamlit.defaultRecord ℚ)).overlapping_robots = 0
    ∧ Streamlit.overlapCount
        ((Streamlit.simRecords (α := ℚ) 1 1 2 1 [Node.storage 0 0, Node.storage 0 0]
          (fun s t => some [s, t]) (fun _ => 2)).take 1) (Node.storage 0 0) = 1
    ∧ (0 : ℕ) ≠ 1 := by
  have hrun : Streamlit.simRecords (α := ℚ) 1 1 2 1
      [Node.storage 0 0, Node.storage 0 0] (fun s t => some [s, t]) (fun _ => 2)
      = [{ transaction_id := 0, robot_id := 0, start_node := Node.depot,
           storage_node := Node.storage 0 0, travel_time := 6,
           overlapping_robots := 0, delay := 0, total_transaction_time := 6 },
         { transaction_id := 1, robot_id := 0, start_node := Node.depot,
           storage_node := Node.storage 0 0, travel_time := 6,
           overlapping_robots := 0, delay := 0, total_transaction_time := 6 }] := by
    simp only [Streamlit.simRecords, Streamlit.simulate_transactions_with_tracking,
      List.enum, List.enumFrom, List.foldl]
    norm_num [Streamlit.simStep, Streamlit.initState, Streamlit.validate_path,
      Streamlit.pairLegal, Streamlit.overlapCount]
  refine ⟨?_, ?_, by omega⟩
  · rw [hrun]
    rfl
  · rw [hrun]
    rfl

/-- Witness for C6 (amended): with one robot and a single order the recorded
overlap count of that order is exactly 0. -/
theorem overlap_count_rule_witness :
    ((Streamlit.simRecords (α := ℚ) 1 1 2 1 [Node.storage 0 0]
        (fun s t => some [s, t]) (fun _ => 2)).getD 0
          (Streamlit.defaultRecord ℚ)).overlapping_robots = 0 := by
  have hlen : 0 < (Streamlit.simRecords (α := ℚ) 1 1 2 1 [Node.storage 0 0]
      (fun s t => some [s, t]) (fun _ => 2)).length := by
    rw [show (Streamlit.simRecords (α := ℚ) 1 1 2 1 [Node.storage 0 0]
      (fun s t => some [s, t]) (fun _ => 2)).length = 1 from rfl]
    omega
  have h := overlap_count_rule ℚ 1 1 2 1 [Node.storage 0 0]
    (fun s t => some [s, t]) (fun _ => 2) 0 hlen
  rw [if_neg (by omega)] at h
  rw [List.getD_eq_get _ _ hlen]
  exact h

/-- The running total-time invariant of the tracking simulator: the total is
non-negative, it is zero while no transaction has been recorded, and it is
positive as soon as one has. -/
theorem simStep_total_time_invariant {α : Type} [LinearOrderedField α]
    (num_robots num_levels : ℕ) (extraction_time traffic_multiplier : α)
    (findPath : Node → Node → Option (List Node)) (jitter : ℕ → α)
    (he : 0 < extraction_time) (htm : 0 ≤ traffic_multiplier)
    (st : Streamlit.SimState α) (order : ℕ × Node)
    (hinv : 0 ≤ st.total_time ∧ (st.tracking_data = [] → st.total_time = 0)
      ∧ (st.tracking_data ≠ [] → 0 < st.total_time)) :
    0 ≤ (Streamlit.simStep num_robots num_levels extraction_time
        traffic_multiplier findPath jitter st order).total_time
    ∧ ((Streamlit.simStep num_robots num_levels extraction_time
        traffic_multiplier findPath jitter st order).tracking_data = []
      → (Streamlit.simStep num_robots num_levels extraction_time
        traffic_multiplier findPath jitter st order).total_time = 0)
    ∧ ((Streamlit.simStep num_robots num_levels extraction_time
        traffic_multiplier findPath jitter st order).tracking_data ≠ []
      → 0 < (Streamlit.simStep num_robots num_levels extraction_time
        traffic_multiplier findPath jitter st order).total_time) := by
  obtain ⟨hnonneg, hzero, hpos⟩ := hinv
  unfold Streamlit.simStep
  dsimp only
  split
  next path_to_storage path_to_fulfillment h1 h2 =>
    split
    next hvalid =>
      have htt : 0 < (path_to_storage.length : α) * traffic_multiplier
          + extraction_time + (path_to_fulfillment.length : α) * traffic_multiplier := by
        have h1 : (0:α) ≤ (path_to_storage.length : α) * traffic_multiplier :=
          mul_nonneg (Nat.cast_nonneg _) htm
        have h2 : (0:α) ≤ (path_to_fulfillment.length : α) * traffic_multiplier :=
          mul_nonneg (Nat.cast_nonneg _) htm
        linarith
      refine ⟨by dsimp only; linarith, ?_, fun _ => by dsimp only; linarith⟩
      intro hemp
      exact absurd hemp (by simp)
    next hinvalid => exact ⟨hnonneg, hzero, hpos⟩
  next => exact ⟨hnonneg, hzero, hpos⟩

/-- C3 (amended): in the Streamlit `main`, throughput is
`(3600 / avg) * num_robots` and total shift transactions is `throughput * 8`
when the average transaction time is positive, and both are 0 otherwise; a
run with at least one successful transaction has a positive average (and a
run with none has average 0, hence throughput 0).  In `Spyder_Robo.py`'s
`run_cases`, however, throughput is `3600 / avg` with no robot-count
factor. -/
theorem throughput_formula_amended (num_robots num_levels : ℕ)
    (extraction_time traffic_multiplier : ℝ) (orders : List Node)
    (findPath : Node → Node → Option (List Node)) (jitter : ℕ → ℝ)
    (he : 0 < extraction_time) (htm : 0 ≤ traffic_multiplier) :
    (∀ avg : ℝ, 0 < avg →
      Streamlit.main_metrics avg num_robots
        = ((3600 / avg) * (num_robots : ℝ), (3600 / avg) * (num_robots : ℝ) * 8))
    ∧ Streamlit.main_metrics 0 num_robots = (0, 0)
    ∧ ((Streamlit.simulate_transactions_with_tracking num_robots num_levels
          extraction_time traffic_multiplier orders findPath jitter).2.1 ≠ []
        → 0 < (Streamlit.simulate_transactions_with_tracking num_robots num_levels
          extraction_time traffic_multiplier orders findPath jitter).1)
    ∧ ((Streamlit.simulate_transactions_with_tracking num_robots num_levels
          extraction_time traffic_multiplier orders findPath jitter).2.1 = []
        → (Streamlit.simulate_transactions_with_tracking num_robots num_levels
          extraction_time traffic_multiplier orders findPath jitter).1 = 0)
    ∧ (∀ avg : ℝ, SpyderRobo.run_cases_metrics avg
        = (3600 / avg, (3600 / avg) * 8)) := by
  have hfold := foldl_preserves
    (Streamlit.simStep num_robots num_levels extraction_time traffic_multiplier
      findPath jitter)
    (fun s => 0 ≤ s.total_time ∧ (s.tracking_data = [] → s.total_time = 0)
      ∧ (s.tracking_data ≠ [] → 0 < s.total_time))
    (fun s o hs => simStep_total_time_invariant num_robots num_levels
      extraction_time traffic_multiplier findPath jitter he htm s o hs)
    orders.enum (Streamlit.initState ℝ num_robots)
    ⟨le_refl 0, fun _ => rfl, fun habs => absurd rfl habs⟩
  refine ⟨?_, ?_, ?_, ?_, ?_⟩
  · intro avg havg
    unfold Streamlit.main_metrics
    rw [if_pos havg]
  · unfold Streamlit.main_metrics
    rw [if_neg (lt_irrefl 0)]
  · unfold Streamlit.simulate_transactions_with_tracking
    split
    next hempty => intro habs; exact absurd rfl habs
    next hnonempty =>
      dsimp only
      intro hrecs
      have hlen : 0 < orders.length := by
        rcases orders with _ | ⟨o, os⟩
        · exact absurd (rfl : ([] : List Node).isEmpty = true) hnonempty
        · simp
      rw [if_pos hlen]
      have htotal : 0 < (orders.enum.foldl
          (Streamlit.simStep num_robots num_levels extraction_time
            traffic_multiplier findPath jitter)
          (Streamlit.initState ℝ num_robots)).total_time :=
        hfold.2.2 hrecs
      exact div_pos htotal (by exact_mod_cast hlen)
  · unfold Streamlit.simulate_transactions_with_tracking
    split
    next hempty => intro _; rfl
    next hnonempty =>
      dsimp only
      intro hrecs
      have htotal : (orders.enum.foldl
          (Streamlit.simStep num_robots num_levels extraction_time
            traffic_multiplier findPath jitter)
          (Streamlit.initState ℝ num_robots)).total_time = 0 :=
        hfold.2.1 hrecs
      rw [htotal]
      split
      · exact zero_div _
      · rfl
  · intro avg
    rfl

/-- C3 counterexample: `run_cases` in `Spyder_Robo.py` reports
`throughput = 3600 / avg` with no robot-count factor, so for a run with 2
robots and average transaction time 1 the reported throughput is 3600, not
`(3600 / 1) * 2 = 7200` as the claim asserts for every run. -/
theorem throughput_robot_factor_counterexample :
    (SpyderRobo.run_cases_metrics 1).1 = 3600
    ∧ (3600 / (1:ℝ)) * 2 = 7200
    ∧ (SpyderRobo.run_cases_metrics 1).1 ≠ (3600 / (1:ℝ)) * 2 := by
  refine ⟨?_, by norm_num, ?_⟩ <;> norm_num [SpyderRobo.run_cases_metrics]

/-- Witness for C3 (amended): with zero orders the tracking log is empty and
the reported average transaction time is the sentinel 0. -/
theorem throughput_formula_amended_witness :
    (Streamlit.simulate_transactions_with_tracking (α := ℝ) 2 1 2 1 []
      (fun _ _ => none) (fun _ => 2)).1 = 0 :=
  (throughput_formula_amended 2 1 2 1 [] (fun _ _ => none) (fun _ => 2)
    (by norm_num) (by norm_num)).2.2.2.1 rfl

/-- Records with zero overlap count leave the overlap fold at its initial
accumulator. -/
theorem overlapFold_all_zero {α : Type} [LinearOrderedField α] (rate : α) :
    ∀ (l : List (Streamlit.TransactionRecord α)),
      (∀ r ∈ l, r.overlapping_robots = 0) →
      l.foldl (Streamlit.overlapFoldStep rate) (0, 0, 0) = (0, 0, 0) := by
  intro l
  induction l with
  | nil => intro _; rfl
  | cons r rest ih =>
    intro hall
    have hr : r.overlapping_robots = 0 := hall r (List.mem_cons_self r rest)
    have hstep : Streamlit.overlapFoldStep rate (0, 0, 0) r = (0, 0, 0) := by
      unfold Streamlit.overlapFoldStep
      rw [if_neg (by omega)]
    rw [List.foldl_cons, hstep]
    exact ih (fun r' hr' => hall r' (List.mem_cons_of_mem r hr'))

/-- C4 (amended): the Streamlit variants guard every ratio — cost per
transaction is the sentinel 0 when `total_transactions` is not positive, a
run with zero orders reports average transaction time 0, and the average
delay per overlap is 0 when no record carries an overlap — but the
`Spyder_Robo.py` variants do not: `calculate_cost_per_transaction` divides
by a zero `total_transactions` and `simulate_transactions` divides by a zero
`num_transactions`, both raising `ZeroDivisionError` (modelled `none`). -/
theorem degenerate_input_guards (α : Type) [LinearOrderedField α]
    (num_robots upgrade_cost total_transactions energy maintenance rate : α)
    (tracking_data : List (Streamlit.TransactionRecord α))
    (num_robots' num_levels' : ℕ) (extraction_time traffic_multiplier : α)
    (findPath : Node → Node → Option (List Node)) (jitter : ℕ → α)
    (hzero : ¬ 0 < total_transactions)
    (hnoov : ∀ r ∈ tracking_data, r.overlapping_robots = 0) :
    Streamlit.calculate_cost_per_transaction num_robots upgrade_cost
        total_transactions energy tracking_data maintenance = 0
    ∧ (Streamlit.simulate_transactions_with_tracking num_robots' num_levels'
        extraction_time traffic_multiplier [] findPath jitter).1 = 0
    ∧ (Streamlit.analyze_robot_overlaps tracking_data rate).average_delay = 0
    ∧ SpyderRobo.calculate_cost_per_transaction num_robots upgrade_cost 0 = none
    ∧ SpyderRobo.simulate_transactions num_robots' extraction_time []
        (fun _ => 1) = none := by
  refine ⟨?_, rfl, ?_, ?_, rfl⟩
  · unfold Streamlit.calculate_cost_per_transaction
    rw [if_neg hzero]
  · unfold Streamlit.analyze_robot_overlaps
    rw [overlapFold_all_zero rate tracking_data hnoov]
    dsimp only
    rw [if_neg (by omega)]
  · unfold SpyderRobo.calculate_cost_per_transaction
    rw [if_pos rfl]

/-- C4 counterexample: with zero transactions the `Spyder_Robo.py` ratios
fault (`ZeroDivisionError`, modelled `none`) instead of yielding a defined
sentinel: `calculate_cost_per_transaction(1, 0, 0)` divides by zero, and
`simulate_transactions` over zero transactions divides zero by zero. -/
theorem degenerate_input_fault_counterexample :
    SpyderRobo.calculate_cost_per_transaction (α := ℚ) 1 0 0 = none
    ∧ SpyderRobo.simulate_transactions (α := ℚ) 1 2 [] (fun _ => 1) = none := by
  constructor <;> rfl

/-- Witness for C4 (amended): concrete degenerate inputs — zero
transactions and an overlap-free log. -/
theorem degenerate_input_guards_witness :
    Streamlit.calculate_cost_per_transaction (α := ℚ) 1 0 0 (1/10) [] 2 = 0
    ∧ (Streamlit.analyze_robot_overlaps (α := ℚ) [] (1/20)).average_delay = 0 := by
  have h := degenerate_input_guards ℚ 1 0 0 (1/10) 2 (1/20) [] 1 1 2 1
    (fun _ _ => none) (fun _ => 2) (by norm_num)
    (fun r hr => absurd hr (List.not_mem_nil r))
  exact ⟨h.1, h.2.2.1⟩

/-- C7 counterexample: two orders with equal priority 5 arriving as
locations `(1,0)` then `(0,0)`.  `PriorityQueue` breaks the priority tie by
comparing the location tuples, so `prioritize_orders` returns
`[(0,0), (1,0)]`, not the arrival order `[(1,0), (0,0)]` required by
stability. -/
theorem prioritize_orders_not_stable :
    Streamlit.prioritize_orders [((1, 0), 5), ((0, 0), 5)] = [(0, 0), (1, 0)]
    ∧ Streamlit.prioritize_orders [((1, 0), 5), ((0, 0), 5)] ≠ [(1, 0), (0, 0)] := by
  constructor <;> decide

/-- C7 (amended): `prioritize_orders` returns the order locations sorted in
ascending priority, but priority ties are resolved by comparing the location
tuples — the lexicographic `(priority, location)` heap order — not by
original arrival order. -/
theorem prioritize_orders_sorted (orders : List ((ℕ × ℕ) × ℕ)) :
    List.Sorted Streamlit.pqLe (orders.insertionSort Streamlit.pqLe)
    ∧ (orders.insertionSort Streamlit.pqLe).Perm orders
    ∧ List.Pairwise (fun x y => x.2 ≤ y.2) (orders.insertionSort Streamlit.pqLe)
    ∧ Streamlit.prioritize_orders orders
        = (orders.insertionSort Streamlit.pqLe).map (fun order => order.1) := by
  refine ⟨List.sorted_insertionSort _ _, List.perm_insertionSort _ _, ?_, rfl⟩
  refine List.Pairwise.imp ?_ (List.sorted_insertionSort Streamlit.pqLe orders)
  intro x y hxy
  unfold Streamlit.pqLe at hxy
  omega

end Spyder
